import Mathlib

/-!
Shallow embedding of the PDF-chatbot repository (src/utils.py, src/app.py,
src/pages/admin.py, src/pages/user.py) and proofs about it.

The repository contains two parallel implementations of the same tool:
a standalone one in `src/app.py` and a multi-page one built on
`src/utils.py` with `src/pages/admin.py` / `src/pages/user.py`.
Both are embedded below where a claim cites them.

Modelling conventions:
  - The JSON config written by `utils.save_config` is the `Config`
    structure; Python dicts become insertion-ordered association lists
    (`List (String × α)`), with assignment updating in place and `del`
    removing the key, exactly as Python 3.7+ dicts behave.
  - The filesystem is explicit state: `pdfFiles` maps a path to the PDF
    bytes stored there, `vectorFiles` is the set of vector-store artifact
    paths that exist on disk.
  - External library calls (PyPDF2 extraction, the langchain text
    splitter, OpenAI embeddings + FAISS) are parameters of an `Env`
    record; claims quantify over their behaviour or fix it by hypothesis.
  - `st.error(...)` calls are modelled as an emitted list of error
    message strings, so "user-visible error" is the list being non-empty.
-/

/-! ## Association-list model of Python dicts -/

/-- Python `d.get(k)` / `d[k]` lookup on an insertion-ordered dict. -/
def dictLookup {α : Type} : List (String × α) → String → Option α
  | [], _ => none
  | (k', v) :: rest, k => if k' = k then some v else dictLookup rest k

/-- Python `d[k] = v`: update the existing key in place, else append. -/
def dictInsert {α : Type} (k : String) (v : α) : List (String × α) → List (String × α)
  | [] => [(k, v)]
  | (k', v') :: rest =>
      if k' = k then (k, v) :: rest else (k', v') :: dictInsert k v rest

/-- Python `del d[k]` (removes every binding of `k`; a real dict has at
most one). -/
def dictRemove {α : Type} (k : String) (l : List (String × α)) : List (String × α) :=
  l.filter (fun p => p.1 != k)

/-- Python `list(d.keys())`. -/
def dictKeys {α : Type} (l : List (String × α)) : List String :=
  l.map Prod.fst

/-! ## Data model (`utils.load_config` / `save_config`) -/

/-- One value of `config["pdfs"]`, as written by `utils.save_pdf`
(utils.py lines 65-69). -/
structure PdfEntry where
  path : String
  description : String
  vectorstore : String
deriving Repr, DecidableEq

/-- The JSON object stored in `data/config.json`
(utils.py `load_config`, lines 38-42). -/
structure Config where
  admin_password : String
  pdfs : List (String × PdfEntry)
  active_pdf : Option String
deriving Repr, DecidableEq

/-- The registry state: the config file plus the two data directories.
`pdfFiles` maps a PDF path to the bytes stored there; `vectorFiles`
lists the vector-store artifact paths that exist. -/
structure State where
  config : Config
  pdfFiles : List (String × List Nat)
  vectorFiles : List String
deriving Repr, DecidableEq

/-- `os.path.join(PDF_DIR, f"{pdf_name}.pdf")` (utils.py line 57). -/
def pdfPath (pdf_name : String) : String :=
  "data/pdfs/" ++ pdf_name ++ ".pdf"

/-- `os.path.join(VECTOR_DIR, f"{pdf_name}.pkl")` (utils.py lines 68, 111). -/
def vsPath (pdf_name : String) : String :=
  "data/vectorstores/" ++ pdf_name ++ ".pkl"

/-- Add a path to the set of existing vector-store files. -/
def addFile (files : List String) (p : String) : List String :=
  if files.contains p then files else files ++ [p]

/-! ## Chunker configuration and external environment -/

/-- Configuration handed to `RecursiveCharacterTextSplitter`. The
`length_function` field records which length measure the splitter uses. -/
structure SplitterConfig where
  chunk_size : Nat
  chunk_overlap : Nat
  length_function : String → Nat

/-- The splitter built in `utils.create_vectorstore` (utils.py lines
86-90): `chunk_size=1000, chunk_overlap=200, length_function=len`.
`len` on a Python str counts characters, i.e. `String.length`. -/
def createVectorstoreSplitter : SplitterConfig :=
  { chunk_size := 1000, chunk_overlap := 200, length_function := String.length }

/-- The splitter built in `app.process_pdf` (app.py lines 75-79):
identical configuration. -/
def appProcessPdfSplitter : SplitterConfig :=
  { chunk_size := 1000, chunk_overlap := 200, length_function := String.length }

/-- External collaborators of the core: the OpenAI key in scope, the
langchain splitter, the embedding + FAISS build (one call, failing with
the exception message), and PyPDF2 text extraction from a path. -/
structure Env where
  apiKey : Option String
  split : SplitterConfig → String → List String
  embedBuild : String → List String → Except String Unit
  extract : String → Except String String

/-! ## Registry operations (`src/utils.py`) -/

/-- `utils.save_pdf` (utils.py lines 54-73): write the uploaded bytes,
insert/overwrite the registry entry, make the new document active,
return the file path. There is no duplicate-id check. -/
def save_pdf (st : State) (uploaded : List Nat) (pdf_name description : String) :
    State × String :=
  let file_path := pdfPath pdf_name
  let pdfFiles := dictInsert file_path uploaded st.pdfFiles
  let entry : PdfEntry :=
    { path := file_path, description := description, vectorstore := vsPath pdf_name }
  let config :=
    { st.config with
        pdfs := dictInsert pdf_name entry st.config.pdfs
        active_pdf := some pdf_name }
  ({ st with config := config, pdfFiles := pdfFiles }, file_path)

/-- `utils.create_vectorstore` (utils.py lines 83-118): split, bail out
with a user-visible error on zero chunks or a missing key, call the
embedding service, persist the store on success. Returns the updated
state, the vector-store path (`None` on failure), and the `st.error`
messages emitted. -/
def create_vectorstore (env : Env) (st : State) (text pdf_name : String) :
    State × Option String × List String :=
  let chunks := env.split createVectorstoreSplitter text
  if chunks.isEmpty then
    (st, none, ["Could not extract text from PDF. Please check if the PDF contains selectable text."])
  else
    match env.apiKey with
    | none => (st, none, ["OpenAI API key is required. Please provide it in the sidebar."])
    | some key =>
        match env.embedBuild key chunks with
        | Except.error e => (st, none, ["Error creating vector store: " ++ e])
        | Except.ok _ =>
            let p := vsPath pdf_name
            ({ st with vectorFiles := addFile st.vectorFiles p }, some p, [])

/-- `utils.process_pdf` (utils.py lines 158-189): look the document up,
require the key, extract (exceptions are caught by the outer handler),
build the vector store, and on success record its path in the entry.
Returns the updated state, the boolean result, and the error messages. -/
def process_pdf (env : Env) (st : State) (pdf_name : String) :
    State × Bool × List String :=
  match dictLookup st.config.pdfs pdf_name with
  | none => (st, false, ["PDF " ++ pdf_name ++ " not found in configuration."])
  | some pdf_info =>
      match env.apiKey with
      | none => (st, false, ["OpenAI API key is required to process PDFs. Please provide it in the sidebar."])
      | some _ =>
          match env.extract pdf_info.path with
          | Except.error e => (st, false, ["Error processing PDF: " ++ e])
          | Except.ok pdf_text =>
              match create_vectorstore env st pdf_text pdf_name with
              | (st1, none, errs) => (st1, false, errs)
              | (st1, some vp, _) =>
                  let config :=
                    { st1.config with
                        pdfs := dictInsert pdf_name { pdf_info with vectorstore := vp } st1.config.pdfs }
                  ({ st1 with config := config }, true, [])

/-- `utils.get_all_pdfs` (utils.py lines 191-194). -/
def get_all_pdfs (cfg : Config) : List (String × PdfEntry) :=
  cfg.pdfs

/-- `utils.get_active_pdf` (utils.py lines 196-202): the active name and
its entry, but only when the name is still registered. -/
def get_active_pdf (cfg : Config) : Option (String × PdfEntry) :=
  match cfg.active_pdf with
  | some a =>
      match dictLookup cfg.pdfs a with
      | some e => some (a, e)
      | none => none
  | none => none

/-- `utils.set_active_pdf` (utils.py lines 204-211). -/
def set_active_pdf (cfg : Config) (pdf_name : String) : Config × Bool :=
  if (dictLookup cfg.pdfs pdf_name).isSome then
    ({ cfg with active_pdf := some pdf_name }, true)
  else (cfg, false)

/-- `utils.delete_pdf` (utils.py lines 213-238): remove the stored PDF
and the vector store, drop the registry entry, and if the deleted
document was active, fall back to `list(config["pdfs"].keys())[0]` —
the first remaining key in insertion order — or `None`. -/
def delete_pdf (st : State) (pdf_name : String) : State × Bool :=
  match dictLookup st.config.pdfs pdf_name with
  | none => (st, false)
  | some info =>
      let pdfFiles := dictRemove info.path st.pdfFiles
      let vectorFiles := st.vectorFiles.filter (fun p => p != info.vectorstore)
      let pdfs := dictRemove pdf_name st.config.pdfs
      let active :=
        if st.config.active_pdf = some pdf_name then
          match pdfs with
          | [] => none
          | (k, _) :: _ => some k
        else st.config.active_pdf
      ({ config := { st.config with pdfs := pdfs, active_pdf := active },
         pdfFiles := pdfFiles, vectorFiles := vectorFiles }, true)

/-- Processing status as the UI derives it: `os.path.exists` of the
entry's vector-store path (admin.py line 126, user.py line 75). -/
def statusProcessed (st : State) (pdf_name : String) : Bool :=
  match dictLookup st.config.pdfs pdf_name with
  | some e => st.vectorFiles.contains e.vectorstore
  | none => false

/-! ## Basic dict lemmas -/

theorem dictLookup_insert_self {α : Type} (k : String) (v : α) (l : List (String × α)) :
    dictLookup (dictInsert k v l) k = some v := by
  induction l with
  | nil => simp [dictInsert, dictLookup]
  | cons hd tl ih =>
      by_cases h : hd.1 = k
      · simp [dictInsert, h, dictLookup]
      · simpa [dictInsert, h, dictLookup] using ih

theorem dictLookup_insert_ne {α : Type} (k k' : String) (v : α) (l : List (String × α))
    (h : k ≠ k') : dictLookup (dictInsert k v l) k' = dictLookup l k' := by
  induction l with
  | nil => simp [dictInsert, dictLookup, h]
  | cons hd tl ih =>
      by_cases hk : hd.1 = k
      · simp [dictInsert, hk, dictLookup, h]
      · simp [dictInsert, hk, dictLookup, ih]

theorem dictRemove_cons {α : Type} (k : String) (hd : String × α) (tl : List (String × α)) :
    dictRemove k (hd :: tl) =
      if hd.1 = k then dictRemove k tl else hd :: dictRemove k tl := by
  by_cases h : hd.1 = k <;> simp [dictRemove, List.filter_cons, bne_iff_ne, h]

theorem dictLookup_remove_self {α : Type} (k : String) (l : List (String × α)) :
    dictLookup (dictRemove k l) k = none := by
  induction l with
  | nil => simp [dictRemove, dictLookup]
  | cons hd tl ih =>
      rw [dictRemove_cons]
      by_cases h : hd.1 = k
      · simpa [h] using ih
      · simpa [h, dictLookup] using ih

theorem dictLookup_remove_ne {α : Type} (k k' : String) (l : List (String × α))
    (h : k ≠ k') : dictLookup (dictRemove k l) k' = dictLookup l k' := by
  induction l with
  | nil => simp [dictRemove, dictLookup]
  | cons hd tl ih =>
      rw [dictRemove_cons]
      by_cases hk : hd.1 = k
      · have hne : hd.1 ≠ k' := by rw [hk]; exact h
        simpa [hk, dictLookup, hne, h] using ih
      · by_cases hk' : hd.1 = k'
        · simp [hk, dictLookup, hk', Ne.symm h]
        · simpa [hk, dictLookup, hk'] using ih

theorem dictLookup_insert_isSome {α : Type} (k k' : String) (v : α) (l : List (String × α))
    (h : (dictLookup l k').isSome) : (dictLookup (dictInsert k v l) k').isSome := by
  by_cases hk : k = k'
  · subst hk; simp [dictLookup_insert_self]
  · rwa [dictLookup_insert_ne k k' v l hk]

/-! ## Conversation sessions (`src/app.py` and `src/pages/user.py`) -/

/-- One entry of `st.session_state.chat_history` / `messages`:
`{"role": ..., "content": ...}`. -/
structure ChatMsg where
  role : String
  content : String
deriving Repr, DecidableEq

/-- A loaded `ConversationalRetrievalChain`: its `run` method, taking the
question and returning the answer or raising (the exception message). -/
def Conv : Type := String → Except String String

/-- The chat turn of `app.user_view` (app.py lines 380-398): append the
user message, run the chain inside `try`, on success append the
assistant message, on failure emit `st.error` and append nothing.
Reached only with a conversation present (app.py line 369). -/
def user_view_chat (chat_history : List ChatMsg) (conversation : Conv)
    (user_question : String) : List ChatMsg × List String :=
  let h1 := chat_history ++ [{ role := "user", content := user_question }]
  match conversation user_question with
  | Except.ok response =>
      (h1 ++ [{ role := "assistant", content := response }], [])
  | Except.error e => (h1, ["Error generating response: " ++ e])

/-- The chat turn of `pages/user.display_chat_interface` (user.py lines
100-119): the user message is appended first; generation runs only when
a conversation is bound; failure emits `st.error` and appends nothing. -/
def display_chat_interface (messages : List ChatMsg) (conversation : Option Conv)
    (user_question : Option String) : List ChatMsg × List String :=
  match user_question with
  | none => (messages, [])
  | some q =>
      let m1 := messages ++ [{ role := "user", content := q }]
      match conversation with
      | none => (m1, [])
      | some run =>
          match run q with
          | Except.ok response =>
              (m1 ++ [{ role := "assistant", content := response }], [])
          | Except.error e => (m1, ["Error generating response: " ++ e])

/-- The per-user session state of `app.py` (session_state keys
`current_pdf`, `conversation`, `chat_history`). -/
structure AppSession where
  current_pdf : Option String
  conversation : Option Conv
  chat_history : List ChatMsg

/-- The document-switch branch of `app.user_view`'s sidebar (app.py
lines 347-357): when the selection differs from `current_pdf`, an API
key is required; with one present the session rebinds to the new
document, loads the conversation (`setup` is `setup_conversation`'s
result), and clears the chat history. -/
def app_switch_pdf (s : AppSession) (selected : String) (apiKey : Option String)
    (setup : Option Conv) : AppSession × List String :=
  if s.current_pdf = some selected then (s, [])
  else
    match apiKey with
    | none => (s, ["Please provide an OpenAI API key."])
    | some _ =>
        ({ current_pdf := some selected, conversation := setup, chat_history := [] }, [])

/-- The rebind branch of `pages/user.main` (user.py lines 150-157): when
a document is selected and either no conversation is bound or the
selection changed, `current_pdf` is updated and the conversation is
re-initialized (`initResult` is the conversation `initialize_chat`
leaves behind, `none` on failure). The `messages` list is not touched. -/
def user_main_rebind (current_pdf : Option String) (conversation : Option Conv)
    (messages : List ChatMsg) (selected : Option String) (initResult : Option Conv) :
    Option String × Option Conv × List ChatMsg :=
  match selected with
  | none => (current_pdf, conversation, messages)
  | some sel =>
      if conversation.isNone || decide (current_pdf ≠ some sel) then
        (some sel, initResult, messages)
      else (current_pdf, conversation, messages)

/-- The default index of the document picker in
`pages/user.setup_sidebar` (user.py lines 55-61):
`list(pdfs.keys()).index(active
          )` when an active name exists, else 0. -/
def picker_default_index (pdfNames : List String) (active : Option String) : Nat :=
  match active with
  | some a => pdfNames.indexOf a
  | none => 0

/-! ## SHA-256 (`hashlib.sha256(...).hexdigest()` as used by
`utils.hash_password` and `app.hash_password`) -/

/-- 2^32; all SHA-256 word arithmetic is modulo this. -/
def w32 : Nat := 4294967296

/-- 32-bit modular addition. -/
def add32 (a b : Nat) : Nat := (a + b) % w32

/-- 32-bit right rotation. -/
def rotr32 (n x : Nat) : Nat := ((x >>> n) ||| (x <<< (32 - n))) % w32

def xor3 (a b c : Nat) : Nat := Nat.xor (Nat.xor a b) c

def bigSigma0 (x : Nat) : Nat := xor3 (rotr32 2 x) (rotr32 13 x) (rotr32 22 x)
def bigSigma1 (x : Nat) : Nat := xor3 (rotr32 6 x) (rotr32 11 x) (rotr32 25 x)
def smallSigma0 (x : Nat) : Nat := xor3 (rotr32 7 x) (rotr32 18 x) (x >>> 3)
def smallSigma1 (x : Nat) : Nat := xor3 (rotr32 17 x) (rotr32 19 x) (x >>> 10)

/-- SHA-256 choice function `(x ∧ y) ⊕ (¬x ∧ z)` on 32-bit words. -/
def chOp (x y z : Nat) : Nat :=
  Nat.xor (Nat.land x y) (Nat.land (Nat.xor x 4294967295) z)

/-- SHA-256 majority function. -/
def majOp (x y z : Nat) : Nat :=
  Nat.xor (Nat.xor (Nat.land x y) (Nat.land x z)) (Nat.land y z)

/-- The 64 SHA-256 round constants. -/
def sha256K : List Nat :=
  [
   1116352408, 1899447441, 3049323471, 3921009573, 961987163,
   1508970993, 2453635748, 2870763221, 3624381080, 310598401,
   607225278, 1426881987, 1925078388, 2162078206, 2614888103,
   3248222580, 3835390401, 4022224774, 264347078, 604807628,
   770255983, 1249150122, 1555081692, 1996064986, 2554220882,
   2821834349, 2952996808, 3210313671, 3336571891, 3584528711,
   113926993, 338241895, 666307205, 773529912, 1294757372,
   1396182291, 1695183700, 1986661051, 2177026350, 2456956037,
   2730485921, 2820302411, 3259730800, 3345764771, 3516065817,
   3600352804, 4094571909, 275423344, 430227734, 506948616,
   659060556, 883997877, 958139571, 1322822218, 1537002063,
   1747873779, 1955562222, 2024104815, 2227730452, 2361852424,
   2428436474, 2756734187, 3204031479, 3329325298]

/-- The SHA-256 initial hash value. -/
def sha256H0 : List Nat :=
  [
   1779033703, 3144134277, 1013904242,
   2773480762, 1359893119, 2600822924,
   528734635, 1541459225]

/-- Big-endian bytes to 32-bit words. -/
def bytesToWords : List Nat → List Nat
  | b0 :: b1 :: b2 :: b3 :: rest => (((b0 * 256 + b1) * 256 + b2) * 256 + b3) :: bytesToWords rest
  | _ => []

/-- Extend the 16-word message schedule by the given number of words. -/
def extendSchedule (w : List Nat) : Nat → List Nat
  | 0 => w
  | k + 1 =>
      let i := w.length
      let wi := add32 (add32 (smallSigma1 (w.getD (i - 2) 0)) (w.getD (i - 7) 0))
                      (add32 (smallSigma0 (w.getD (i - 15) 0)) (w.getD (i - 16) 0))
      extendSchedule (w ++ [wi]) k

/-- One SHA-256 compression round on the working state `[a,b,c,d,e,f,g,h]`. -/
def compressRound (st : List Nat) (kw : Nat × Nat) : List Nat :=
  match st with
  | [a, b, c, d, e, f, g, h] =>
      let t1 := add32 h (add32 (bigSigma1 e) (add32 (chOp e f g) (add32 kw.1 kw.2)))
      let t2 := add32 (bigSigma0 a) (majOp a b c)
      [add32 t1 t2, a, b, c, add32 d t1, e, f, g]
  | other => other

/-- Compress one 64-byte block into the hash state. -/
def compressBlock (hs : List Nat) (block : List Nat) : List Nat :=
  let w := extendSchedule (bytesToWords block) 48
  let st := (sha256K.zip w).foldl compressRound hs
  List.zipWith add32 hs st

/-- Fold the compression over the given number of 64-byte blocks. -/
def processBlocks : List Nat → List Nat → Nat → List Nat
  | hs, _, 0 => hs
  | hs, msg, n + 1 => processBlocks (compressBlock hs (msg.take 64)) (msg.drop 64) n

/-- `k`-byte big-endian encoding of `n`. -/
def natToBytesBE : Nat → Nat → List Nat
  | 0, _ => []
  | k + 1, n => natToBytesBE k (n / 256) ++ [n % 256]

/-- SHA-256 padding: `0x80`, zeros to 56 mod 64, 8-byte bit length. -/
def sha256pad (msg : List Nat) : List Nat :=
  let len := msg.length
  let z := (119 - len % 64) % 64
  msg ++ 0x80 :: (List.replicate z 0 ++ natToBytesBE 8 (len * 8))

/-- The eight 32-bit words of the SHA-256 digest of a byte string. -/
def sha256words (msg : List Nat) : List Nat :=
  let padded := sha256pad msg
  processBlocks sha256H0 padded (padded.length / 64)

/-- Lower-case hex digit. -/
def hexDigit (n : Nat) : Char :=
  if n < 10 then Char.ofNat (48 + n) else Char.ofNat (87 + n)

/-- Eight-hex-digit rendering of a 32-bit word. -/
def wordToHex (n : Nat) : String :=
  String.mk ((List.range 8).map (fun i => hexDigit (n / 16 ^ (7 - i) % 16)))

/-- `hashlib.sha256(msg).hexdigest()` on a byte string. -/
def sha256hexBytes (msg : List Nat) : String :=
  String.join ((sha256words msg).map wordToHex)

/-- UTF-8 encoding of one character (Python `str.encode()` per char). -/
def utf8Bytes (c : Char) : List Nat :=
  let n := c.toNat
  if n < 128 then [n]
  else if n < 2048 then [192 + n / 64, 128 + n % 64]
  else if n < 65536 then [224 + n / 4096, 128 + n / 64 % 64, 128 + n % 64]
  else [240 + n / 262144, 128 + n / 4096 % 64, 128 + n / 64 % 64, 128 + n % 64]

/-- Python `password.encode()`: the UTF-8 bytes of the string. -/
def strBytes (s : String) : List Nat :=
  s.data.flatMap utf8Bytes

/-! ## Credential functions (`utils.py` lines 25-32, 240-244; `app.py`
lines 24, 43-45) -/

/-- `utils.hash_password` / `app.hash_password`:
`hashlib.sha256(password.encode()).hexdigest()`. -/
def hash_password (password : String) : String :=
  sha256hexBytes (strBytes password)

/-- `utils.verify_password` (utils.py lines 29-32). -/
def verify_password (input_password stored_hash : String) : Bool :=
  hash_password input_password == stored_hash

/-- `utils.change_admin_password` (utils.py lines 240-244), acting on
the loaded config; `pages/admin.py` lines 166-168 perform the same
update inline. -/
def change_admin_password (config : Config) (new_password : String) : Config :=
  { config with admin_password := hash_password new_password }

/-- The hard-coded admin digest in `app.py` line 24, documented there as
the hash of `"admin"`. -/
def ADMIN_PASSWORD_HASH : String :=
  "8c6976e5b5410415bde908bd4dee15dfb167a9c873fc4bb8a81f6f2ab448a918"

/-- The default config created by `utils.load_config` (utils.py lines
38-42) when no config file exists. -/
def defaultConfig : Config :=
  { admin_password := hash_password "admin", pdfs := [], active_pdf := none }

/-- The initial registry state: default config, no stored PDFs, no
vector stores. -/
def initialState : State :=
  { config := defaultConfig, pdfFiles := [], vectorFiles := [] }

/-! ## `app.py`'s standalone `process_pdf` (app.py lines 69-97) -/

/-- `os.path.join("vectorstores", f"{pdf_name}.pkl")` (app.py line 91). -/
def appVsPath (pdf_name : String) : String :=
  "vectorstores/" ++ pdf_name ++ ".pkl"

/-- `app.process_pdf` (app.py lines 69-97) after its (uncaught-on-failure)
text extraction on line 72 has produced `text`: split with the default
splitter, report failure on zero chunks, then build and persist the
vector store inside `try`. `sessionKey` is
`st.session_state.openai_api_key`. Returns the updated set of
vector-store files, the success flag, and the status message. -/
def process_pdf_app (env : Env) (vectorFiles : List String)
    (pdf_name text sessionKey : String) : List String × Bool × String :=
  let chunks := env.split appProcessPdfSplitter text
  if chunks.isEmpty then
    (vectorFiles, false, "Could not extract text from PDF. Make sure it contains selectable text.")
  else
    match env.embedBuild sessionKey chunks with
    | Except.error e => (vectorFiles, false, "Error processing PDF: " ++ e)
    | Except.ok _ =>
        (addFile vectorFiles (appVsPath pdf_name), true, "PDF processed successfully.")

/-! ## Registry invariant (spec section 3, "Registry entry") -/

/-- The active reference is valid: `active_pdf`, when set, names a
registered document. -/
def activeValidB (cfg : Config) : Bool :=
  match cfg.active_pdf with
  | none => true
  | some a => (dictLookup cfg.pdfs a).isSome

/-- Every registry entry's index reference points to a built index
artifact that exists on disk. -/
def indexRefsBuiltB (st : State) : Bool :=
  st.config.pdfs.all (fun p => st.vectorFiles.contains p.2.vectorstore)

/-- The spec's registry invariant: never reference a deleted document or
a not-yet-built index. -/
def registryInvariantB (st : State) : Bool :=
  activeValidB st.config && indexRefsBuiltB st

/-! ## Concrete fixtures used by witnesses and counterexamples -/

def entryA : PdfEntry :=
  { path := pdfPath "a", description := "da", vectorstore := vsPath "a" }

def entryB : PdfEntry :=
  { path := pdfPath "b", description := "db", vectorstore := vsPath "b" }

def entryC : PdfEntry :=
  { path := pdfPath "c", description := "dc", vectorstore := vsPath "c" }

/-- A registry holding exactly the unprocessed document `"a"`. -/
def stOne : State :=
  { config := { admin_password := "h", pdfs := [("a", entryA)], active_pdf := some "a" },
    pdfFiles := [(pdfPath "a", [1])], vectorFiles := [] }

/-- A registry where `"b"`, `"a"`, `"c"` were registered in that order,
all processed, with `"c"` active. -/
def stThree : State :=
  { config :=
      { admin_password := "h",
        pdfs := [("b", entryB), ("a", entryA), ("c", entryC)],
        active_pdf := some "c" },
    pdfFiles := [(pdfPath "b", [1]), (pdfPath "a", [2]), (pdfPath "c", [3])],
    vectorFiles := [vsPath "b", vsPath "a", vsPath "c"] }

/-- An environment whose splitter finds no chunks in any text. -/
def envNoChunks : Env :=
  { apiKey := some "k", split := fun _ _ => [],
    embedBuild := fun _ _ => Except.ok (), extract := fun _ => Except.ok "" }

/-- An environment whose embedding service always fails. -/
def envEmbedFail : Env :=
  { apiKey := some "k", split := fun _ _ => ["c1"],
    embedBuild := fun _ _ => Except.error "rate limit",
    extract := fun _ => Except.ok "text" }

/-- A conversation chain that always answers. -/
def runOk : Conv := fun _ => Except.ok "ans"

/-- A conversation chain that always raises. -/
def runBad : Conv := fun _ => Except.error "boom"

/-! ## Helper lemmas about the operations -/

theorem create_vectorstore_config (env : Env) (st : State) (text name : String) :
    (create_vectorstore env st text name).1.config = st.config := by
  simp only [create_vectorstore]
  split
  · rfl
  · split
    · rfl
    · split <;> rfl

theorem process_pdf_active (env : Env) (st : State) (name : String) :
    (process_pdf env st name).1.config.active_pdf = st.config.active_pdf := by
  simp only [process_pdf]
  split
  · rfl
  split
  · rfl
  split
  · rfl
  split
  · rename_i pdf_text heq1 x st1 errs heq
    have h3 := create_vectorstore_config env st pdf_text name
    rw [heq] at h3
    exact congrArg Config.active_pdf h3
  · rename_i pdf_text heq1 x st1 vp snd heq
    have h3 := create_vectorstore_config env st pdf_text name
    rw [heq] at h3
    show st1.config.active_pdf = st.config.active_pdf
    exact congrArg Config.active_pdf h3

theorem process_pdf_domain (env : Env) (st : State) (name a : String)
    (h : (dictLookup st.config.pdfs a).isSome = true) :
    (dictLookup (process_pdf env st name).1.config.pdfs a).isSome = true := by
  simp only [process_pdf]
  split
  · exact h
  split
  · exact h
  split
  · exact h
  split
  · rename_i pdf_text heq1 x st1 errs heq
    have h3 := create_vectorstore_config env st pdf_text name
    rw [heq] at h3
    show (dictLookup st1.config.pdfs a).isSome = true
    rw [h3]; exact h
  · rename_i pdf_text heq1 x st1 vp snd heq
    have h3 := create_vectorstore_config env st pdf_text name
    rw [heq] at h3
    refine dictLookup_insert_isSome name a _ st1.config.pdfs ?_
    rw [h3]; exact h

theorem mem_dictKeys_insert {α : Type} (k : String) (v : α) (l : List (String × α)) :
    k ∈ dictKeys (dictInsert k v l) := by
  induction l with
  | nil => simp [dictInsert, dictKeys]
  | cons hd tl ih =>
      by_cases h : hd.1 = k
      · simp [dictInsert, h, dictKeys]
      · simp only [dictInsert, h, if_false]
        simp [dictKeys] at ih ⊢
        exact Or.inr ih

theorem getD_indexOf (l : List String) (a : String) (h : a ∈ l) (d : String) :
    l.getD (l.indexOf a) d = a := by
  induction l with
  | nil => cases h
  | cons hd tl ih =>
      by_cases hh : hd = a
      · simp [List.indexOf_cons, hh]
      · have hmem : a ∈ tl := by
          cases h with
          | head => exact absurd rfl hh
          | tail _ hmem => exact hmem
        have hbne : (hd == a) = false := by simp [hh]
        simp only [List.indexOf_cons, hbne, cond_false]
        simpa using ih hmem

/-! ## Claim theorems -/

/-- C8: in both code paths that build an index — `utils.create_vectorstore`
(utils.py lines 86-91) and `app.process_pdf` (app.py lines 74-80) — the
splitter is configured with chunk size 1000 and overlap 200, both
measured by `len`, i.e. in characters (`String.length`). These are
exactly the configurations `create_vectorstore` and `process_pdf_app`
pass to the splitter. -/
theorem chunker_default_configuration :
    createVectorstoreSplitter.chunk_size = 1000 ∧
    createVectorstoreSplitter.chunk_overlap = 200 ∧
    createVectorstoreSplitter.length_function = String.length ∧
    appProcessPdfSplitter.chunk_size = 1000 ∧
    appProcessPdfSplitter.chunk_overlap = 200 ∧
    appProcessPdfSplitter.length_function = String.length ∧
    createVectorstoreSplitter = appProcessPdfSplitter :=
  ⟨rfl, rfl, rfl, rfl, rfl, rfl, rfl⟩

/-- C9: `change_admin_password` stores exactly the SHA-256 hex digest of
the new secret (never the plaintext); `verify_password q stored` is true
exactly when the SHA-256 digest of `q` equals the stored hash; hashing a
password and verifying that same password always succeeds; and the
embedded SHA-256 agrees with the digest of `"admin"` hard-coded in
app.py line 24. -/
theorem password_hashing_correct (cfg : Config) (p q : String) :
    (change_admin_password cfg p).admin_password = sha256hexBytes (strBytes p) ∧
    (verify_password q (change_admin_password cfg p).admin_password = true ↔
      hash_password q = hash_password p) ∧
    verify_password p (hash_password p) = true ∧
    hash_password "admin" = ADMIN_PASSWORD_HASH := by
  refine ⟨rfl, ?_, ?_, ?_⟩
  · simp [verify_password, change_admin_password]
  · simp [verify_password]
  · rfl

/-- C10: `save_pdf` makes every newly uploaded document the active
selection, unconditionally overwriting the previous `active_pdf` and
regardless of processing status (utils.py line 70); `get_active_pdf`
then returns it, its processing status is exactly whether its index
artifact already existed (it is not built by upload), and the
user-page picker (user.py lines 55-61) defaults to its position. -/
theorem save_pdf_sets_active (st : State) (uploaded : List Nat)
    (pdf_name description : String) :
    (save_pdf st uploaded pdf_name description).1.config.active_pdf = some pdf_name ∧
    get_active_pdf (save_pdf st uploaded pdf_name description).1.config =
      some (pdf_name,
        { path := pdfPath pdf_name, description := description,
          vectorstore := vsPath pdf_name }) ∧
    statusProcessed (save_pdf st uploaded pdf_name description).1 pdf_name =
      st.vectorFiles.contains (vsPath pdf_name) ∧
    (dictKeys (save_pdf st uploaded pdf_name description).1.config.pdfs).getD
        (picker_default_index
          (dictKeys (save_pdf st uploaded pdf_name description).1.config.pdfs)
          (save_pdf st uploaded pdf_name description).1.config.active_pdf) "" = pdf_name := by
  refine ⟨rfl, ?_, ?_, ?_⟩
  · simp [get_active_pdf, save_pdf, dictLookup_insert_self]
  · simp [statusProcessed, save_pdf, dictLookup_insert_self]
  · show (dictKeys (dictInsert pdf_name _ st.config.pdfs)).getD
      (picker_default_index _ (some pdf_name)) "" = pdf_name
    simp only [picker_default_index]
    exact getD_indexOf _ pdf_name (mem_dictKeys_insert pdf_name _ st.config.pdfs) ""

/-- C1: in both chat implementations (`app.user_view`, app.py lines
380-398, and `pages/user.display_chat_interface`, user.py lines
100-119), with a conversation bound, asking a question first appends the
user turn; if generation fails the history gains only the user turn and
the error is surfaced, and if it succeeds exactly one assistant turn
with the returned answer follows the user turn. -/
theorem ask_appends_user_turn (history messages : List ChatMsg) (run : Conv) (q : String) :
    (user_view_chat history run q).1.take (history.length + 1) =
      history ++ [{ role := "user", content := q }] ∧
    (∀ e, run q = Except.error e →
      user_view_chat history run q =
        (history ++ [{ role := "user", content := q }],
         ["Error generating response: " ++ e])) ∧
    (∀ a, run q = Except.ok a →
      user_view_chat history run q =
        (history ++ [{ role := "user", content := q },
                     { role := "assistant", content := a }], [])) ∧
    (∀ e, run q = Except.error e →
      display_chat_interface messages (some run) (some q) =
        (messages ++ [{ role := "user", content := q }],
         ["Error generating response: " ++ e])) ∧
    (∀ a, run q = Except.ok a →
      display_chat_interface messages (some run) (some q) =
        (messages ++ [{ role := "user", content := q },
                      { role := "assistant", content := a }], [])) := by
  refine ⟨?_, ?_, ?_, ?_, ?_⟩
  · unfold user_view_chat
    cases h : run q with
    | ok a =>
        simp only [h]
        rw [List.append_assoc]
        have hlen : (history ++ [({ role := "user", content := q } : ChatMsg)]).length
            = history.length + 1 := by simp
        rw [← List.append_assoc, ← hlen, List.take_left]
    | error e =>
        simp only [h]
        have hlen : (history ++ [({ role := "user", content := q } : ChatMsg)]).length
            = history.length + 1 := by simp
        rw [← hlen, List.take_length]
  · intro e he; simp [user_view_chat, he]
  · intro a ha; simp [user_view_chat, ha]
  · intro e he; simp [display_chat_interface, he]
  · intro a ha; simp [display_chat_interface, ha]

/-- C1 witness: the turn contract evaluated on concrete histories, a
succeeding chain and a failing chain. -/
theorem ask_appends_user_turn_witness :
    user_view_chat [] runOk "hi" =
      ([{ role := "user", content := "hi" }, { role := "assistant", content := "ans" }], []) ∧
    user_view_chat [] runBad "hi" =
      ([{ role := "user", content := "hi" }], ["Error generating response: boom"]) ∧
    display_chat_interface [] (some runBad) (some "hi") =
      ([{ role := "user", content := "hi" }], ["Error generating response: boom"]) :=
  ⟨(ask_appends_user_turn [] [] runOk "hi").2.2.1 "ans" rfl,
   (ask_appends_user_turn [] [] runBad "hi").2.1 "boom" rfl,
   (ask_appends_user_turn [] [] runBad "hi").2.2.2.1 "boom" rfl⟩

/-- C7 counterexample: in `pages/user.main` (user.py lines 150-157),
switching from document `"a"` to `"b"` rebinds the session
(`current_pdf` becomes `"b"`) but does NOT discard the prior chat
history: the non-empty `messages` list survives unchanged, contradicting
the claim that switching leaves the session with empty history. -/
theorem rebind_keeps_history_counterexample :
    (user_main_rebind (some "a") none [{ role := "user", content := "hi" }]
        (some "b") (some runOk)).1 = some "b" ∧
    (user_main_rebind (some "a") none [{ role := "user", content := "hi" }]
        (some "b") (some runOk)).2.2 = [{ role := "user", content := "hi" }] ∧
    ([{ role := "user", content := "hi" }] : List ChatMsg) ≠ [] := by
  refine ⟨rfl, rfl, by decide⟩

/-- C7 amended: switching the bound document discards the prior chat
history in `app.user_view` (app.py lines 347-357, given an API key);
but in `pages/user.main` (user.py lines 150-157) switching rebinds the
conversation while retaining the prior messages, which are cleared only
by the explicit new-chat button. -/
theorem rebind_history_behaviour (s : AppSession) (selected key : String)
    (setup : Option Conv) (cp : Option String) (conversation : Option Conv)
    (messages : List ChatMsg) (sel : String) (initResult : Option Conv)
    (hs : s.current_pdf ≠ some selected) :
    app_switch_pdf s selected (some key) setup =
      ({ current_pdf := some selected, conversation := setup, chat_history := [] }, []) ∧
    (user_main_rebind cp conversation messages (some sel) initResult).2.2 = messages := by
  constructor
  · simp [app_switch_pdf, hs]
  · unfold user_main_rebind
    split
    · rfl
    · split <;> rfl

/-- A concrete app session bound to document `"a"` with one prior turn. -/
def sessionA : AppSession :=
  { current_pdf := some "a", conversation := some runOk,
    chat_history := [{ role := "user", content := "hi" }] }

/-- C7 witness: the amended behaviour at concrete sessions. -/
theorem rebind_history_behaviour_witness :
    app_switch_pdf sessionA "b" (some "k") none =
      ({ current_pdf := some "b", conversation := none, chat_history := [] }, []) ∧
    (user_main_rebind (some "a") (some runOk) [{ role := "user", content := "hi" }]
        (some "b") none).2.2 = [{ role := "user", content := "hi" }] := by
  have h := rebind_history_behaviour sessionA "b" "k" none
    (some "a") (some runOk) [{ role := "user", content := "hi" }] "b" none
    (by simp [sessionA])
  exact h

/-- C2: when the extracted text yields zero chunks, both build paths
fail with the terminal extraction error: `utils.process_pdf` leaves the
whole state unchanged (so no index exists and the processing status is
untouched — in particular an unprocessed document stays unprocessed) and
surfaces the user-visible extraction message, and `app.process_pdf`
likewise commits nothing and reports its extraction message. -/
theorem zero_chunks_extraction_error (env : Env) (st : State)
    (pdf_name : String) (info : PdfEntry) (key text : String)
    (vf : List String) (appName appText appKey : String)
    (hlook : dictLookup st.config.pdfs pdf_name = some info)
    (hkey : env.apiKey = some key)
    (hext : env.extract info.path = Except.ok text)
    (hsplit : env.split createVectorstoreSplitter text = [])
    (hsplitApp : env.split appProcessPdfSplitter appText = []) :
    process_pdf env st pdf_name =
      (st, false,
       ["Could not extract text from PDF. Please check if the PDF contains selectable text."]) ∧
    statusProcessed (process_pdf env st pdf_name).1 pdf_name = statusProcessed st pdf_name ∧
    process_pdf_app env vf appName appText appKey =
      (vf, false, "Could not extract text from PDF. Make sure it contains selectable text.") := by
  have h1 : process_pdf env st pdf_name =
      (st, false,
       ["Could not extract text from PDF. Please check if the PDF contains selectable text."]) := by
    simp [process_pdf, hlook, hkey, hext, create_vectorstore, hsplit]
  refine ⟨h1, by rw [h1], ?_⟩
  simp [process_pdf_app, hsplitApp]

/-- C2 witness: a registered document whose text splits into no chunks. -/
theorem zero_chunks_extraction_error_witness :
    process_pdf envNoChunks stOne "a" =
      (stOne, false,
       ["Could not extract text from PDF. Please check if the PDF contains selectable text."]) ∧
    statusProcessed (process_pdf envNoChunks stOne "a").1 "a" = statusProcessed stOne "a" ∧
    process_pdf_app envNoChunks [] "n" "" "k" =
      ([], false, "Could not extract text from PDF. Make sure it contains selectable text.") :=
  zero_chunks_extraction_error envNoChunks stOne "a" entryA "k" "" [] "n" "" "k"
    rfl rfl rfl rfl rfl

/-- C3: when the embedding call fails during `utils.create_vectorstore`
(invoked by `utils.process_pdf`) on a document with at least one chunk,
the failure is surfaced as the vector-store error message and a `False`
result — not swallowed — and the build is all-or-nothing: the state
(registry entries, index artifacts, processing status) is left exactly
as it was, so the document stays unprocessed. -/
theorem embedding_failure_no_commit (env : Env) (st : State)
    (pdf_name : String) (info : PdfEntry) (key text e : String)
    (hlook : dictLookup st.config.pdfs pdf_name = some info)
    (hkey : env.apiKey = some key)
    (hext : env.extract info.path = Except.ok text)
    (hchunks : env.split createVectorstoreSplitter text ≠ [])
    (hembed : env.embedBuild key (env.split createVectorstoreSplitter text) =
      Except.error e) :
    process_pdf env st pdf_name = (st, false, ["Error creating vector store: " ++ e]) ∧
    statusProcessed (process_pdf env st pdf_name).1 pdf_name = statusProcessed st pdf_name ∧
    (process_pdf env st pdf_name).1.vectorFiles = st.vectorFiles := by
  have h1 : process_pdf env st pdf_name =
      (st, false, ["Error creating vector store: " ++ e]) := by
    cases hch : env.split createVectorstoreSplitter text with
    | nil => exact absurd hch hchunks
    | cons c cs =>
        rw [hch] at hembed
        simp [process_pdf, hlook, hkey, hext, create_vectorstore, hch, hembed]
  exact ⟨h1, by rw [h1], by rw [h1]⟩

/-- C3 witness: a registered document whose embedding call is refused by
the provider (e.g. rate limited). -/
theorem embedding_failure_no_commit_witness :
    process_pdf envEmbedFail stOne "a" =
      (stOne, false, ["Error creating vector store: rate limit"]) ∧
    statusProcessed (process_pdf envEmbedFail stOne "a").1 "a" = statusProcessed stOne "a" ∧
    (process_pdf envEmbedFail stOne "a").1.vectorFiles = stOne.vectorFiles :=
  embedding_failure_no_commit envEmbedFail stOne "a" entryA "k" "text" "rate limit"
    rfl rfl rfl (by decide) rfl

/-- C4 counterexample: in `stThree` the documents were registered in the
order `"b"`, `"a"`, `"c"` and `"c"` is active. Deleting `"c"` leaves
ids `["b", "a"]`; the lowest-sorted remaining id is `"a"` (indeed
`"a" < "b"`), but `delete_pdf` sets the new default to `list(keys())[0]`
= `"b"`, the first remaining id in insertion order — not the
lowest-sorted one. -/
theorem delete_pdf_not_lowest_sorted :
    dictKeys (delete_pdf stThree "c").1.config.pdfs = ["b", "a"] ∧
    ("a" : String) < "b" ∧
    (delete_pdf stThree "c").1.config.active_pdf = some "b" ∧
    (delete_pdf stThree "c").1.config.active_pdf ≠ some "a" := by
  refine ⟨rfl, by rw [String.lt_iff_toList_lt]; decide, rfl, by decide⟩

/-- C4 amended: `delete_pdf` of a registered id removes the stored PDF
bytes and the index artifact, `get_all` no longer includes the id, and
if the deleted id was the active selection the registry deterministically
selects the FIRST REMAINING ID IN REGISTRATION (insertion) ORDER as the
new default — not the lowest-sorted id — or none when no documents
remain; a non-active deletion leaves the default unchanged. -/
theorem delete_pdf_removes_and_redefaults (st : State) (pdf_name : String)
    (info : PdfEntry)
    (hlook : dictLookup st.config.pdfs pdf_name = some info) :
    (delete_pdf st pdf_name).2 = true ∧
    dictLookup (delete_pdf st pdf_name).1.pdfFiles info.path = none ∧
    info.vectorstore ∉ (delete_pdf st pdf_name).1.vectorFiles ∧
    dictLookup (get_all_pdfs (delete_pdf st pdf_name).1.config) pdf_name = none ∧
    (delete_pdf st pdf_name).1.config.active_pdf =
      (if st.config.active_pdf = some pdf_name then
        (dictRemove pdf_name st.config.pdfs).head?.map Prod.fst
      else st.config.active_pdf) := by
  refine ⟨?_, ?_, ?_, ?_, ?_⟩
  · simp [delete_pdf, hlook]
  · simp only [delete_pdf, hlook]
    exact dictLookup_remove_self info.path st.pdfFiles
  · simp only [delete_pdf, hlook]
    intro hmem
    rw [List.mem_filter] at hmem
    simp at hmem
  · simp only [delete_pdf, hlook, get_all_pdfs]
    exact dictLookup_remove_self pdf_name st.config.pdfs
  · simp only [delete_pdf, hlook]
    by_cases hact : st.config.active_pdf = some pdf_name
    · simp only [hact, if_pos rfl]
      cases h : dictRemove pdf_name st.config.pdfs with
      | nil => simp [hact]
      | cons hd tl => simp [hact, h]
    · simp [hact]

/-- C4 witness: deleting the active document `"c"` from `stThree`. -/
theorem delete_pdf_removes_and_redefaults_witness :
    (delete_pdf stThree "c").2 = true ∧
    dictLookup (delete_pdf stThree "c").1.pdfFiles entryC.path = none ∧
    entryC.vectorstore ∉ (delete_pdf stThree "c").1.vectorFiles ∧
    dictLookup (get_all_pdfs (delete_pdf stThree "c").1.config) "c" = none ∧
    (delete_pdf stThree "c").1.config.active_pdf =
      (if stThree.config.active_pdf = some "c" then
        (dictRemove "c" stThree.config.pdfs).head?.map Prod.fst
      else stThree.config.active_pdf) :=
  delete_pdf_removes_and_redefaults stThree "c" entryC rfl

/-- C5 counterexample: the registry invariant (active reference valid
AND every entry's index reference already built) holds in the initial
state but is violated by a single `save_pdf`: the upload eagerly stores
a `vectorstore` path (utils.py line 68) although no index has been
built yet, so the new entry references a not-yet-built index. -/
theorem registry_invariant_violated_by_upload :
    registryInvariantB initialState = true ∧
    registryInvariantB (save_pdf initialState [0] "a" "doc").1 = false := by
  exact ⟨rfl, rfl⟩

/-- C5 amended: the ACTIVE-document half of the invariant does hold:
after any of `save_pdf`, `process_pdf`, `set_active_pdf` and
`delete_pdf`, the `active_pdf` reference never names an unregistered
(deleted) document. The index-reference half fails because `save_pdf`
assigns the index path eagerly at registration, before the index is
built (consumers therefore guard with `os.path.exists`). -/
theorem active_reference_never_dangles (env : Env) (st : State)
    (uploaded : List Nat) (pdf_name description other : String) :
    activeValidB (save_pdf st uploaded pdf_name description).1.config = true ∧
    (activeValidB st.config = true →
      activeValidB (process_pdf env st pdf_name).1.config = true) ∧
    (activeValidB st.config = true →
      activeValidB (set_active_pdf st.config other).1 = true) ∧
    (activeValidB st.config = true →
      activeValidB (delete_pdf st pdf_name).1.config = true) := by
  refine ⟨?_, ?_, ?_, ?_⟩
  · simp [activeValidB, save_pdf, dictLookup_insert_self]
  · intro h
    have hact := process_pdf_active env st pdf_name
    unfold activeValidB at h ⊢
    rw [hact]
    cases ha : st.config.active_pdf with
    | none => rfl
    | some a =>
        rw [ha] at h
        exact process_pdf_domain env st pdf_name a h
  · intro h
    unfold set_active_pdf
    by_cases hl : (dictLookup st.config.pdfs other).isSome
    · simp only [hl, if_true]
      simpa [activeValidB] using hl
    · simpa [hl] using h
  · intro h
    unfold delete_pdf
    cases hl : dictLookup st.config.pdfs pdf_name with
    | none => exact h
    | some info =>
        simp only
        by_cases hact : st.config.active_pdf = some pdf_name
        · simp only [hact, if_pos rfl]
          cases hrem : dictRemove pdf_name st.config.pdfs with
          | nil => rfl
          | cons hd tl =>
              simp only [activeValidB]
              show (dictLookup (hd :: tl) hd.1).isSome = true
              cases hd with
              | mk k v => simp [dictLookup]
        · simp only [hact, if_neg hact]
          unfold activeValidB at h ⊢
          cases ha : st.config.active_pdf with
          | none => rfl
          | some a =>
              rw [ha] at h
              have hne : pdf_name ≠ a := by
                intro hcontra
                exact hact (by rw [ha, hcontra])
              show (dictLookup (dictRemove pdf_name st.config.pdfs) a).isSome = true
              rw [dictLookup_remove_ne pdf_name a st.config.pdfs hne]
              exact h

/-- C5 witness: the active-reference preservation evaluated on the
one-document registry. -/
theorem active_reference_never_dangles_witness :
    activeValidB (save_pdf stOne [0] "a" "d").1.config = true ∧
    activeValidB (process_pdf envNoChunks stOne "a").1.config = true ∧
    activeValidB (set_active_pdf stOne.config "a").1 = true ∧
    activeValidB (delete_pdf stOne "a").1.config = true := by
  have h := active_reference_never_dangles envNoChunks stOne [0] "a" "d" "a"
  exact ⟨h.1, h.2.1 rfl, h.2.2.1 rfl, h.2.2.2 rfl⟩

/-- C6 counterexample: `"a"` is already registered in `stOne` with
description `"da"` and stored bytes `[1]`. `save_pdf` for the same id
does not fail with any duplicate-id error: it succeeds (returning the
file path) and OVERWRITES both the stored bytes and the registry
entry. -/
theorem register_duplicate_overwrites :
    dictLookup stOne.config.pdfs "a" = some entryA ∧
    entryA.description = "da" ∧
    dictLookup stOne.pdfFiles (pdfPath "a") = some [1] ∧
    (save_pdf stOne [9] "a" "new").2 = pdfPath "a" ∧
    dictLookup (save_pdf stOne [9] "a" "new").1.config.pdfs "a" =
      some { path := pdfPath "a", description := "new", vectorstore := vsPath "a" } ∧
    dictLookup (save_pdf stOne [9] "a" "new").1.pdfFiles (pdfPath "a") = some [9] ∧
    some "new" ≠ some entryA.description := by
  refine ⟨rfl, rfl, rfl, rfl, rfl, rfl, by decide⟩

/-- C6 amended: registering an id that already exists follows the
OVERWRITE policy (the alternative the spec's section 9 allows) rather
than failing with `DuplicateIdError`: `save_pdf` always succeeds,
replaces the stored bytes and the registry entry for that id, makes it
active, and leaves every other id's entry unchanged. -/
theorem register_overwrite_policy (st : State) (uploaded : List Nat)
    (pdf_name description : String) :
    (save_pdf st uploaded pdf_name description).2 = pdfPath pdf_name ∧
    dictLookup (save_pdf st uploaded pdf_name description).1.config.pdfs pdf_name =
      some { path := pdfPath pdf_name, description := description,
             vectorstore := vsPath pdf_name } ∧
    dictLookup (save_pdf st uploaded pdf_name description).1.pdfFiles
      (pdfPath pdf_name) = some uploaded ∧
    (save_pdf st uploaded pdf_name description).1.config.active_pdf = some pdf_name ∧
    (∀ k, k ≠ pdf_name →
      dictLookup (save_pdf st uploaded pdf_name description).1.config.pdfs k =
        dictLookup st.config.pdfs k) := by
  refine ⟨rfl, ?_, ?_, rfl, ?_⟩
  · exact dictLookup_insert_self pdf_name _ st.config.pdfs
  · exact dictLookup_insert_self (pdfPath pdf_name) uploaded st.pdfFiles
  · intro k hk
    exact dictLookup_insert_ne pdf_name k _ st.config.pdfs (Ne.symm hk)

/-- C6 witness: the overwrite policy evaluated on the concrete duplicate
registration, including that the distinct id `"b"` is untouched. -/
theorem register_overwrite_policy_witness :
    (save_pdf stOne [9] "a" "new").2 = pdfPath "a" ∧
    dictLookup (save_pdf stOne [9] "a" "new").1.config.pdfs "b" =
      dictLookup stOne.config.pdfs "b" := by
  have h := register_overwrite_policy stOne [9] "a" "new"
  exact ⟨h.1, h.2.2.2.2 "b" (by decide)⟩
